import Mathlib

/-!
Verification of the DNS-resolution pipeline in `GETdns.py`.

The script resolves a batch of URLs to IP addresses concurrently, counts how
often each IP occurs, and writes a frequency-sorted report of the IPs seen
more than twice.  This file gives a shallow embedding of the script and
proves (or refutes) the specification's claims about it.

Modelling conventions:
- Python strings are Lean `String`s; where character-level pattern matching
  is needed (the scheme regex) we work on `String.data : List Char`.
- The DNS library (`dns.resolver.resolve`) is an external collaborator; it is
  modelled as an oracle `Nat → RType → DnsOutcome` giving, for each attempt
  index and record type, either a list of addresses, the `NoAnswer`
  exception, or any other exception.
- `collections.Counter` is modelled as an association list `List (String × Nat)`
  with dict insertion order (new keys appended at the end).
- The `threading.Lock` around all counter updates of one task makes each
  task's read-modify-write batch atomic, so the set of reachable final
  counters of the concurrent phase is exactly the set of results of running
  the per-URL updates in some arbitrary order (a permutation of the URL
  list); `runTasks` folds the tasks in a given order and theorems quantify
  over all permutations.
- Uncaught Python exceptions are modelled with `Except.error`.
-/

/-- DNS record types requested by the script: `A` (IPv4) and `AAAA` (IPv6). -/
inductive RType where
  | A : RType
  | AAAA : RType
  deriving DecidableEq

/-- Outcome of one call to `dns.resolver.resolve`: a non-empty answer list,
the dedicated `dns.resolver.NoAnswer` exception, or any other exception
(timeout, NXDOMAIN, server failure, network error, ...). -/
inductive DnsOutcome where
  | success : List String → DnsOutcome
  | noAnswer : DnsOutcome
  | otherError : DnsOutcome
  deriving DecidableEq

/-- Observable behaviour of one `query_dns` run: the returned list of
addresses, the total time slept in `time.sleep(delay)` calls, and the
sequence of resolver calls made, each recorded as (record type, lifetime). -/
structure QueryResult where
  ips : List String
  sleepTotal : Nat
  calls : List (RType × Nat)
  deriving DecidableEq

/-- Characters of the source regex `^https?://` without the optional `s`. -/
def cleanChars : List Char → List Char
  | 'h' :: 't' :: 't' :: 'p' :: ':' :: '/' :: '/' :: rest => rest
  | 'h' :: 't' :: 't' :: 'p' :: 's' :: ':' :: '/' :: '/' :: rest => rest
  | url => url

/-- `clean_url` (line 15): `re.sub(r'^https?://', '', url)`.  The pattern is
anchored with `^` (and `re.MULTILINE` is not set), so at most one occurrence,
at the very start of the string, is removed; matching is case-sensitive. -/
def clean_url (url : String) : String :=
  String.mk (cleanChars url.data)

/-- Whether the anchored regex `^https?://` matches the given characters,
i.e. whether `clean_url` strips anything. -/
def hasScheme : List Char → Bool
  | 'h' :: 't' :: 't' :: 'p' :: ':' :: '/' :: '/' :: _ => true
  | 'h' :: 't' :: 't' :: 'p' :: 's' :: ':' :: '/' :: '/' :: _ => true
  | _ => false

/-- The retry loop of `query_dns` (lines 20-33), recursing on the remaining
attempts (`fuel`) and carrying the index of the current attempt.  Each
iteration calls `dns.resolver.resolve(domain, 'A', lifetime=10)`; on
`NoAnswer` it calls `dns.resolver.resolve(domain, 'AAAA', lifetime=10)` once
and returns its list on success and `[]` on any failure; on any other
exception it sleeps `delay` and retries; when the attempts are exhausted it
returns `[]`. -/
def queryDnsGo (env : Nat → RType → DnsOutcome) (delay : Nat) :
    Nat → Nat → QueryResult
  | _, 0 => ⟨[], 0, []⟩
  | attempt, fuel + 1 =>
    match env attempt RType.A with
    | DnsOutcome.success ips => ⟨ips, 0, [(RType.A, 10)]⟩
    | DnsOutcome.noAnswer =>
      match env attempt RType.AAAA with
      | DnsOutcome.success ips => ⟨ips, 0, [(RType.A, 10), (RType.AAAA, 10)]⟩
      | _ => ⟨[], 0, [(RType.A, 10), (RType.AAAA, 10)]⟩
    | DnsOutcome.otherError =>
      let r := queryDnsGo env delay (attempt + 1) fuel
      ⟨r.ips, delay + r.sleepTotal, (RType.A, 10) :: r.calls⟩

/-- `query_dns(domain, retries=5, delay=2)` (line 19), with the resolver
library abstracted into the oracle `env`. -/
def query_dns (env : Nat → RType → DnsOutcome) (retries : Nat) (delay : Nat) :
    QueryResult :=
  queryDnsGo env delay 0 retries

/-- `collections.Counter` keyed by IP strings, in dict insertion order. -/
abbrev Counter := List (String × Nat)

/-- `output_counter[ip] += 1`: bump an existing key or append a new key with
count 1 (dict insertion order). -/
def incr : Counter → String → Counter
  | [], ip => [(ip, 1)]
  | (k, v) :: rest, ip =>
    if k = ip then (k, v + 1) :: rest else (k, v) :: incr rest ip

/-- The count stored for `ip` (0 when absent). -/
def countOf : Counter → String → Nat
  | [], _ => 0
  | (k, v) :: rest, ip => if k = ip then v else countOf rest ip

/-- Sum of all counts in the table. -/
def totalCount (c : Counter) : Nat :=
  (c.map Prod.snd).sum

/-- `process_url` (lines 36-47): clean the URL, run `query_dns`, and if the
result list is non-empty, increment the counter once per returned IP and
print one `域名: .. | A 记录: ..` line per IP (modelled as (domain, ip)
pairs), all inside the lock.  The enclosing try/except swallows errors; the
modelled body is total, so nothing is thrown.  Returns the new counter and
the log lines printed. -/
def process_url (envOf : String → Nat → RType → DnsOutcome) (url : String)
    (c : Counter) : Counter × List (String × String) :=
  let domain := clean_url url
  let r := query_dns (envOf domain) 5 2
  if r.ips = [] then (c, [])
  else (r.ips.foldl incr c, r.ips.map (fun ip => (domain, ip)))

/-- The counter effect of one task (the critical section of `process_url`). -/
def taskStep (envOf : String → Nat → RType → DnsOutcome) (c : Counter)
    (url : String) : Counter :=
  (process_url envOf url c).1

/-- Execute every URL's task in the given order, starting from counter `c`.
Because every counter mutation in `process_url` happens under the single
shared lock, the final counters reachable by the concurrent phase are
exactly `runTasks envOf order []` for `order` a permutation of the URL
list. -/
def runTasks (envOf : String → Nat → RType → DnsOutcome)
    (order : List String) (c : Counter) : Counter :=
  order.foldl (taskStep envOf) c

/-- The bound `min(max_threads, len(urls))` computed on line 51 and passed to
`ThreadPoolExecutor`; it is the upper bound on concurrently active workers.
Note there is no lower clamp in the source. -/
def effectiveWorkers (urls : List String) (maxThreads : Int) : Int :=
  min maxThreads (urls.length : Int)

/-- `process_urls_concurrently` (lines 50-61).  CPython's
`ThreadPoolExecutor.__init__` raises `ValueError("max_workers must be
greater than 0")` when the computed worker count is ≤ 0; that exception is
not caught anywhere, so it aborts the run (`Except.error`).  Otherwise every
submitted task runs to completion and the lock serializes the counter
updates; the resulting counter for the canonical order is returned (other
interleavings are quantified over via `runTasks`). -/
def process_urls_concurrently (envOf : String → Nat → RType → DnsOutcome)
    (urls : List String) (maxThreads : Int) : Except String Counter :=
  let mt : Int := min maxThreads (urls.length : Int)
  if mt ≤ 0 then Except.error "ValueError: max_workers must be greater than 0"
  else Except.ok (runTasks envOf urls [])

/-- `write_sorted_output`'s pure core (lines 73-78): sort the counter items
by count descending — Python's `sorted(..., key=lambda x: x[1],
reverse=True)` is a stable sort, modelled by the stable `insertionSort` with
relation `b.2 ≤ a.2` — then keep only the entries with count > 2, in order.
The returned list is the sequence of (ip, count) report lines written. -/
def write_sorted_output (counter : Counter) : List (String × Nat) :=
  let sorted_ips := List.insertionSort (fun a b => b.2 ≤ a.2) counter
  sorted_ips.filter (fun p => decide (2 < p.2))

/-- What can happen when `write_sorted_output` touches the file system. -/
inductive WriteOutcome where
  | openOk : WriteOutcome
  | openFails : WriteOutcome
  deriving DecidableEq

/-- Run-time effect of `write_sorted_output` (lines 70-80) on the output
file.  `open(output_file, 'w', ...)` truncates: on success the file's new
content is exactly the filtered sorted lines, regardless of `old`.  Any
exception is caught by the function's own try/except, which prints
`写入文件失败` and returns normally; the second component records whether
that message was printed.  This function is total: write failures never
escape it. -/
def writeReportFile (w : WriteOutcome) (old : Option (List (String × Nat)))
    (counter : Counter) : Option (List (String × Nat)) × Bool :=
  match w with
  | WriteOutcome.openOk => (some (write_sorted_output counter), false)
  | WriteOutcome.openFails => (old, true)

/-- File-system situations `ensure_directory_exists` (lines 64-67) can meet:
the output path has no directory component, the directory already exists,
`os.makedirs` succeeds, or `os.makedirs` raises (e.g. permission denied). -/
inductive DirStatus where
  | emptyDirname : DirStatus
  | alreadyThere : DirStatus
  | createOk : DirStatus
  | createFails : DirStatus
  deriving DecidableEq

/-- `ensure_directory_exists` (lines 64-67).  The function body contains no
try/except, so an exception from `os.makedirs` propagates to the caller. -/
def ensure_directory_exists : DirStatus → Except String Unit
  | DirStatus.createFails => Except.error "makedirs raised"
  | _ => Except.ok ()

/-- Whether a run-tail reached the completion messages and whether the
write-failure message was printed. -/
structure RunTail where
  reachedCompletion : Bool
  writeErrorReported : Bool
  deriving DecidableEq

/-- The report-writing part of `main` (lines 99 and 109-114), parameterised
by the counter produced by the concurrent phase.  `ensure_directory_exists`
is called on line 99 outside any try/except, so an exception there is
uncaught (`Except.error`) and the completion messages on lines 112-114 are
never printed; `write_sorted_output` catches its own exceptions, so after a
successful directory check the run always reaches the completion
messages. -/
def mainTail (d : DirStatus) (w : WriteOutcome)
    (old : Option (List (String × Nat))) (counter : Counter) :
    Except String RunTail :=
  match ensure_directory_exists d with
  | Except.error e => Except.error e
  | Except.ok _ =>
    let r := writeReportFile w old counter
    Except.ok ⟨true, r.2⟩

/-- An oracle on which every resolver call fails with a retriable error. -/
def allFailEnv : Nat → RType → DnsOutcome :=
  fun _ _ => DnsOutcome.otherError

/-- The all-failing oracle, for every domain. -/
def allFailEnvOf : String → Nat → RType → DnsOutcome :=
  fun _ => allFailEnv

/-- Oracle for the AAAA-fallback witness: A lookups hit a retriable error on
attempts 0 and 1 and report no-answer on attempt 2; AAAA succeeds. -/
def env4 : Nat → RType → DnsOutcome := fun i r =>
  match r with
  | RType.AAAA => DnsOutcome.success ["2001:db8::1"]
  | RType.A => if i < 2 then DnsOutcome.otherError else DnsOutcome.noAnswer

/-- Oracle resolving every domain to itself as the single address,
immediately. -/
def echoEnvOf : String → Nat → RType → DnsOutcome :=
  fun d _ _ => DnsOutcome.success [d]

/-! ### Helper lemmas -/

theorem cleanChars_http (rest : List Char) :
    cleanChars ('h' :: 't' :: 't' :: 'p' :: ':' :: '/' :: '/' :: rest) = rest :=
  rfl

theorem cleanChars_https (rest : List Char) :
    cleanChars ('h' :: 't' :: 't' :: 'p' :: 's' :: ':' :: '/' :: '/' :: rest) = rest :=
  rfl

theorem cleanChars_of_no_scheme (l : List Char) (h : hasScheme l = false) :
    cleanChars l = l := by
  unfold cleanChars
  split
  · simp [hasScheme] at h
  · simp [hasScheme] at h
  · rfl

theorem sortedByCountDesc_write (counter : Counter) :
    (write_sorted_output counter).Pairwise
      (fun a b : String × Nat => b.2 ≤ a.2) := by
  haveI : IsTotal (String × Nat) (fun a b : String × Nat => b.2 ≤ a.2) :=
    ⟨fun a b => le_total b.2 a.2⟩
  haveI : IsTrans (String × Nat) (fun a b : String × Nat => b.2 ≤ a.2) :=
    ⟨fun _ _ _ hab hbc => hbc.trans hab⟩
  have hs := List.sorted_insertionSort
    (fun a b : String × Nat => b.2 ≤ a.2) counter
  exact List.Pairwise.sublist (List.filter_sublist _) hs

theorem write_sorted_output_empty (counter : Counter)
    (h : ∀ e ∈ counter, e.2 ≤ 2) : write_sorted_output counter = [] := by
  unfold write_sorted_output
  rw [List.filter_eq_nil_iff]
  intro a ha
  have : a ∈ counter := (List.mem_insertionSort _).1 ha
  have h2 := h a this
  simp only [decide_eq_true_eq]
  omega

/-! ### Claim theorems -/

/-- C6 (confirmed): `clean_url` strips exactly one leading `http://` or
`https://` when present (case-sensitive, anchored at the start) and leaves
any line without such a scheme completely unchanged; it is a total pure
function. -/
theorem C6_clean_url_strips_scheme (rest url : String)
    (h : hasScheme url.data = false) :
    clean_url (String.mk ('h' :: 't' :: 't' :: 'p' :: ':' :: '/' :: '/' :: rest.data)) = rest ∧
    clean_url (String.mk ('h' :: 't' :: 't' :: 'p' :: 's' :: ':' :: '/' :: '/' :: rest.data)) = rest ∧
    clean_url url = url := by
  refine ⟨rfl, rfl, ?_⟩
  show String.mk (cleanChars url.data) = url
  rw [cleanChars_of_no_scheme url.data h]

/-- Witness for C6 at concrete inputs: `http://example.com` and
`https://example.com` normalize to `example.com`, and `ftp://x` (no
recognized scheme) is unchanged. -/
theorem C6_witness :
    clean_url (String.mk ('h' :: 't' :: 't' :: 'p' :: ':' :: '/' :: '/' :: ("example.com" : String).data)) = "example.com" ∧
    clean_url (String.mk ('h' :: 't' :: 't' :: 'p' :: 's' :: ':' :: '/' :: '/' :: ("example.com" : String).data)) = "example.com" ∧
    clean_url "ftp://x" = "ftp://x" :=
  C6_clean_url_strips_scheme "example.com" "ftp://x" (by decide)

/-- C7 (confirmed): every entry of the written report has count strictly
greater than 2; entries with count ≤ 2 never appear. -/
theorem C7_report_counts_over_two (counter : Counter) (e : String × Nat)
    (h : e ∈ write_sorted_output counter) : 2 < e.2 := by
  unfold write_sorted_output at h
  have := (List.mem_filter.1 h).2
  simpa using this

/-- Witness for C7: a concrete entry of a concrete report has count > 2. -/
theorem C7_witness :
    (("1.2.3.4", 3) ∈ write_sorted_output [("1.2.3.4", 3)]) ∧
    2 < (("1.2.3.4", 3) : String × Nat).2 :=
  ⟨by decide, C7_report_counts_over_two [("1.2.3.4", 3)] ("1.2.3.4", 3) (by decide)⟩

/-- C8 (confirmed): the report lines are ordered by count non-increasing:
for any earlier entry `a` and later entry `b`, `b.2 ≤ a.2`. -/
theorem C8_report_sorted_desc (counter : Counter) :
    (write_sorted_output counter).Pairwise
      (fun a b : String × Nat => b.2 ≤ a.2) :=
  sortedByCountDesc_write counter

/-- C10 (confirmed): when no entry has count > 2 (including the empty
snapshot), the writer still opens the path in overwrite mode: the file ends
up existing with empty content, truncating whatever was there before, and no
error is reported. -/
theorem C10_truncates_to_empty (old : Option (List (String × Nat)))
    (counter : Counter) (h : ∀ e ∈ counter, e.2 ≤ 2) :
    writeReportFile WriteOutcome.openOk old counter = (some [], false) := by
  unfold writeReportFile
  rw [write_sorted_output_empty counter h]

/-- Witness for C10: a snapshot whose only entry has count 2 overwrites a
previously non-empty file with an empty one. -/
theorem C10_witness :
    writeReportFile WriteOutcome.openOk (some [("old-ip", 5)]) [("8.8.8.8", 2)] =
      (some [], false) :=
  C10_truncates_to_empty (some [("old-ip", 5)]) [("8.8.8.8", 2)] (by decide)

/-- C9 counterexample: when `os.makedirs` raises (e.g. the parent directory
is not creatable), the exception escapes `ensure_directory_exists` — which
has no try/except and whose caller `main` has none either — so the run
crashes and never reaches its completion messages, contrary to the claim
that every failure of the report-writing step is reported and non-fatal. -/
theorem C9_counterexample :
    mainTail DirStatus.createFails WriteOutcome.openOk none [] =
      Except.error "makedirs raised" :=
  rfl

/-- C9 as amended: only failures inside `write_sorted_output` itself (e.g.
an unwritable output file) are caught, reported to the console, and leave
the run to reach its completion messages; a failure while creating the
destination directory propagates uncaught and aborts the run before the
completion messages. -/
theorem C9_amended_write_failures_nonfatal (w : WriteOutcome) (c : Counter)
    (old : Option (List (String × Nat))) (d : DirStatus)
    (hd : d ≠ DirStatus.createFails) :
    mainTail d w old c =
      Except.ok ⟨true, decide (w = WriteOutcome.openFails)⟩ ∧
    mainTail DirStatus.createFails w old c = Except.error "makedirs raised" := by
  constructor
  · cases d with
    | createFails => exact absurd rfl hd
    | emptyDirname => cases w <;> rfl
    | alreadyThere => cases w <;> rfl
    | createOk => cases w <;> rfl
  · rfl

/-- Witness for C9's amended theorem: with an existing directory and an
unwritable file, the failure message is printed and the completion messages
are still reached; with a failing `makedirs` the run aborts. -/
theorem C9_witness :
    mainTail DirStatus.alreadyThere WriteOutcome.openFails none [] =
      Except.ok ⟨true, decide (WriteOutcome.openFails = WriteOutcome.openFails)⟩ ∧
    mainTail DirStatus.createFails WriteOutcome.openFails none [] =
      Except.error "makedirs raised" :=
  C9_amended_write_failures_nonfatal WriteOutcome.openFails [] none
    DirStatus.alreadyThere (by decide)

/-- C1 counterexample: with one URL and `--threads 0` the claim predicts an
effective concurrency of `max(1, min(0, 1)) = 1` and a normal run, but the
source computes `min(0, 1) = 0` with no lower clamp and
`ThreadPoolExecutor(0)` raises `ValueError`, aborting the run. -/
theorem C1_counterexample :
    process_urls_concurrently allFailEnvOf ["example.com"] 0 =
      Except.error "ValueError: max_workers must be greater than 0" ∧
    max 1 (min (0 : Int) ((["example.com"] : List String).length : Int)) = 1 := by
  constructor
  · rfl
  · decide

/-- C1 as amended: the orchestrator bounds concurrency by
`min(configured_max, domain_count)` with no lower clamp; when that bound is
positive the run proceeds with every task executed and the worker bound at
most the configured maximum and at most the domain count, and when the bound
is ≤ 0 (a thread argument ≤ 0, or an empty domain list) the
`ThreadPoolExecutor` constructor raises `ValueError` and the run aborts. -/
theorem C1_amended_clamp (envOf : String → Nat → RType → DnsOutcome)
    (urls : List String) (mt : Int) :
    (0 < min mt (urls.length : Int) →
      process_urls_concurrently envOf urls mt =
        Except.ok (runTasks envOf urls []) ∧
      1 ≤ effectiveWorkers urls mt ∧
      effectiveWorkers urls mt ≤ mt ∧
      effectiveWorkers urls mt ≤ (urls.length : Int)) ∧
    (min mt (urls.length : Int) ≤ 0 →
      process_urls_concurrently envOf urls mt =
        Except.error "ValueError: max_workers must be greater than 0") := by
  constructor
  · intro hpos
    refine ⟨?_, ?_, ?_, ?_⟩
    · unfold process_urls_concurrently
      rw [if_neg (by omega)]
    · unfold effectiveWorkers
      omega
    · unfold effectiveWorkers
      exact min_le_left _ _
    · unfold effectiveWorkers
      exact min_le_right _ _
  · intro hle
    unfold process_urls_concurrently
    rw [if_pos (by omega)]

/-- Witness for C1's amended theorem at a concrete input: 5 configured
threads and one URL give a positive bound, the run proceeds, and the bound
is at most both limits. -/
theorem C1_witness :
    process_urls_concurrently allFailEnvOf ["example.com"] 5 =
      Except.ok (runTasks allFailEnvOf ["example.com"] []) ∧
    1 ≤ effectiveWorkers ["example.com"] 5 ∧
    effectiveWorkers ["example.com"] 5 ≤ 5 ∧
    effectiveWorkers ["example.com"] 5 ≤ ((["example.com"] : List String).length : Int) :=
  (C1_amended_clamp allFailEnvOf ["example.com"] 5).1 (by decide)

theorem queryDnsGo_succ_success (env : Nat → RType → DnsOutcome)
    (d a fuel : Nat) (ips : List String)
    (h : env a RType.A = DnsOutcome.success ips) :
    queryDnsGo env d a (fuel + 1) = ⟨ips, 0, [(RType.A, 10)]⟩ := by
  rw [queryDnsGo, h]

theorem queryDnsGo_succ_noAnswer (env : Nat → RType → DnsOutcome)
    (d a fuel : Nat) (h : env a RType.A = DnsOutcome.noAnswer) :
    queryDnsGo env d a (fuel + 1) =
      (match env a RType.AAAA with
       | DnsOutcome.success ips =>
         (⟨ips, 0, [(RType.A, 10), (RType.AAAA, 10)]⟩ : QueryResult)
       | _ => ⟨[], 0, [(RType.A, 10), (RType.AAAA, 10)]⟩) := by
  rw [queryDnsGo, h]

theorem queryDnsGo_succ_other (env : Nat → RType → DnsOutcome)
    (d a fuel : Nat) (h : env a RType.A = DnsOutcome.otherError) :
    queryDnsGo env d a (fuel + 1) =
      ⟨(queryDnsGo env d (a + 1) fuel).ips,
       d + (queryDnsGo env d (a + 1) fuel).sleepTotal,
       (RType.A, 10) :: (queryDnsGo env d (a + 1) fuel).calls⟩ := by
  rw [queryDnsGo, h]

theorem queryDnsGo_allFail (env : Nat → RType → DnsOutcome) (d : Nat) :
    ∀ (fuel a : Nat),
    (∀ i, a ≤ i → i < a + fuel → env i RType.A = DnsOutcome.otherError) →
    queryDnsGo env d a fuel = ⟨[], d * fuel, List.replicate fuel (RType.A, 10)⟩ := by
  intro fuel
  induction fuel with
  | zero => intro a _; rfl
  | succ n ih =>
    intro a h
    rw [queryDnsGo_succ_other env d a n (h a (le_refl a) (by omega))]
    rw [ih (a + 1) (fun i h1 h2 => h i (by omega) (by omega))]
    rw [List.replicate_succ, Nat.mul_succ, Nat.add_comm d (d * n)]

theorem queryDnsGo_noAnswerAt (env : Nat → RType → DnsOutcome) (d : Nat) :
    ∀ (k fuel a : Nat), k < fuel →
    (∀ i, a ≤ i → i < a + k → env i RType.A = DnsOutcome.otherError) →
    env (a + k) RType.A = DnsOutcome.noAnswer →
    queryDnsGo env d a fuel =
      ⟨(match env (a + k) RType.AAAA with
        | DnsOutcome.success l => l
        | _ => []),
       d * k,
       List.replicate k (RType.A, 10) ++ [(RType.A, 10), (RType.AAAA, 10)]⟩ := by
  intro k
  induction k with
  | zero =>
    intro fuel a hk hb hna
    obtain ⟨f, rfl⟩ : ∃ f, fuel = f + 1 := ⟨fuel - 1, by omega⟩
    simp only [Nat.add_zero] at hna ⊢
    rw [queryDnsGo_succ_noAnswer env d a f hna]
    cases henv : env a RType.AAAA <;> simp [henv]
  | succ n ih =>
    intro fuel a hk hb hna
    obtain ⟨f, rfl⟩ : ∃ f, fuel = f + 1 := ⟨fuel - 1, by omega⟩
    have ha : env a RType.A = DnsOutcome.otherError := hb a (le_refl a) (by omega)
    rw [queryDnsGo_succ_other env d a f ha]
    have hidx : a + 1 + n = a + (n + 1) := by omega
    have hrec := ih f (a + 1) (by omega)
      (fun i h1 h2 => hb i (by omega) (by omega))
      (by rw [hidx]; exact hna)
    rw [hrec, hidx]
    rw [List.replicate_succ, List.cons_append, Nat.mul_succ, Nat.add_comm d (d * n)]

theorem totalCount_incr (c : Counter) (ip : String) :
    totalCount (incr c ip) = totalCount c + 1 := by
  induction c with
  | nil => rfl
  | cons p rest ih =>
    obtain ⟨k, v⟩ := p
    by_cases hk : k = ip
    · simp [incr, hk, totalCount]
      omega
    · simp only [incr, if_neg hk, totalCount, List.map_cons, List.sum_cons] at ih ⊢
      omega

theorem countOf_incr (c : Counter) (ip jp : String) :
    countOf (incr c ip) jp = countOf c jp + (if ip = jp then 1 else 0) := by
  induction c with
  | nil => simp [incr, countOf]
  | cons p rest ih =>
    obtain ⟨k, v⟩ := p
    by_cases hk : k = ip
    · subst hk
      by_cases hj : k = jp
      · subst hj
        simp [incr, countOf]
      · simp [incr, countOf, hj]
    · by_cases hj : k = jp
      · subst hj
        have hij : ¬(ip = k) := fun h => hk h.symm
        simp [incr, countOf, hk, hij]
      · simp [incr, countOf, hk, hj, ih]

theorem countOf_foldl (l : List String) (c : Counter) (ip : String) :
    countOf (l.foldl incr c) ip = countOf c ip + l.count ip := by
  induction l generalizing c with
  | nil => simp
  | cons b rest ih =>
    simp only [List.foldl_cons]
    rw [ih (incr c b), countOf_incr c b ip]
    by_cases hb : b = ip
    · simp [hb, List.count_cons]
      omega
    · simp [hb, List.count_cons]

theorem totalCount_foldl (l : List String) (c : Counter) :
    totalCount (l.foldl incr c) = totalCount c + l.length := by
  induction l generalizing c with
  | nil => simp
  | cons b rest ih =>
    simp only [List.foldl_cons, List.length_cons]
    rw [ih (incr c b), totalCount_incr]
    omega

theorem taskStep_success (envOf : String → Nat → RType → DnsOutcome)
    (u : String) (c : Counter) (ip : String)
    (h : envOf (clean_url u) 0 RType.A = DnsOutcome.success [ip]) :
    taskStep envOf c u = incr c ip := by
  have hq : query_dns (envOf (clean_url u)) 5 2 = ⟨[ip], 0, [(RType.A, 10)]⟩ :=
    queryDnsGo_succ_success (envOf (clean_url u)) 2 0 4 [ip] h
  unfold taskStep
  simp [process_url, hq]

theorem runTasks_map (envOf : String → Nat → RType → DnsOutcome)
    (ipOf : String → String) :
    ∀ (l : List String) (c : Counter),
    (∀ u ∈ l, envOf (clean_url u) 0 RType.A = DnsOutcome.success [ipOf u]) →
    runTasks envOf l c = (l.map ipOf).foldl incr c := by
  intro l
  induction l with
  | nil => intro c _; rfl
  | cons b rest ih =>
    intro c h
    have hb := h b (List.mem_cons_self b rest)
    simp only [runTasks, List.foldl_cons, List.map_cons]
    rw [taskStep_success envOf b c (ipOf b) hb]
    exact ih (incr c (ipOf b)) (fun u hu => h u (List.mem_cons_of_mem b hu))

/-- C3 (confirmed): when every A-record attempt fails with an error other
than no-answer, `query_dns` makes exactly 5 A-record attempts (the fixed
maximum), sleeps the fixed 2-unit delay after each failed attempt before
retrying, makes no AAAA call, and finally returns the empty list — the
function is total, so no error is ever propagated to the caller. -/
theorem C3_retry_exhaustion_empty (env : Nat → RType → DnsOutcome)
    (h : ∀ i, i < 5 → env i RType.A = DnsOutcome.otherError) :
    query_dns env 5 2 = ⟨[], 10, List.replicate 5 (RType.A, 10)⟩ :=
  queryDnsGo_allFail env 2 5 0 (fun i h1 h2 => h i (by omega))

/-- Witness for C3 on the concrete always-failing oracle. -/
theorem C3_witness :
    query_dns allFailEnv 5 2 = ⟨[], 10, List.replicate 5 (RType.A, 10)⟩ :=
  C3_retry_exhaustion_empty allFailEnv (by decide)

/-- C4 (confirmed): when the A-record lookup reports no-answer at attempt
`k` (after `k` retriable failures), the resolver performs exactly one AAAA
lookup, with the same lifetime 10 as every A lookup, makes no further
A-record attempt afterwards, and returns the AAAA answer list on success and
the empty list on any other AAAA outcome (including another no-answer). -/
theorem C4_noAnswer_fallback (env : Nat → RType → DnsOutcome) (k : Nat)
    (hk : k < 5)
    (hb : ∀ i, i < k → env i RType.A = DnsOutcome.otherError)
    (hna : env k RType.A = DnsOutcome.noAnswer) :
    (query_dns env 5 2).calls =
      List.replicate k (RType.A, 10) ++ [(RType.A, 10), (RType.AAAA, 10)] ∧
    (query_dns env 5 2).ips =
      (match env k RType.AAAA with
       | DnsOutcome.success l => l
       | _ => []) := by
  have h0 := queryDnsGo_noAnswerAt env 2 k 5 0 hk
    (fun i h1 h2 => hb i (by omega)) (by simpa using hna)
  simp only [Nat.zero_add] at h0
  unfold query_dns
  rw [h0]
  exact ⟨rfl, rfl⟩

/-- Witness for C4: two retriable failures, then no-answer, then a
successful AAAA fallback returning one IPv6 address. -/
theorem C4_witness :
    (query_dns env4 5 2).calls =
      List.replicate 2 (RType.A, 10) ++ [(RType.A, 10), (RType.AAAA, 10)] ∧
    (query_dns env4 5 2).ips =
      (match env4 2 RType.AAAA with
       | DnsOutcome.success l => l
       | _ => []) :=
  C4_noAnswer_fallback env4 2 (by decide) (by decide) (by decide)

/-- C5 counterexample: a domain failing with a timeout-class error on all 5
attempts sleeps `2` units after every failed attempt, including the last, so
the delays total `2 * 5 = 10` time units, not the claimed ~8 (`2 * 4`). -/
theorem C5_counterexample :
    (query_dns allFailEnv 5 2).sleepTotal = 2 * 5 ∧
    (query_dns allFailEnv 5 2).sleepTotal ≠ 2 * 4 := by
  constructor
  · rfl
  · decide

/-- C5 as amended: a domain whose lookups fail with a retriable error on all
5 attempts incurs retry sleeps totaling 10 time units (5 delays of 2 units,
one after every failed attempt including the last), contributes nothing to
the aggregator and produces no console log line. -/
theorem C5_amended_sleep_ten (envOf : String → Nat → RType → DnsOutcome)
    (url : String) (c : Counter)
    (h : ∀ i, i < 5 → envOf (clean_url url) i RType.A = DnsOutcome.otherError) :
    (query_dns (envOf (clean_url url)) 5 2).sleepTotal = 2 * 5 ∧
    process_url envOf url c = (c, []) := by
  have hq : query_dns (envOf (clean_url url)) 5 2 =
      ⟨[], 10, List.replicate 5 (RType.A, 10)⟩ :=
    queryDnsGo_allFail (envOf (clean_url url)) 2 5 0 (fun i h1 h2 => h i (by omega))
  constructor
  · rw [hq]
  · simp [process_url, hq]

/-- Witness for C5's amended theorem on the all-failing oracle. -/
theorem C5_witness :
    (query_dns (allFailEnvOf (clean_url "example.com")) 5 2).sleepTotal = 2 * 5 ∧
    process_url allFailEnvOf "example.com" [] = ([], []) :=
  C5_amended_sleep_ten allFailEnvOf "example.com" [] (by decide)

/-- C2 (confirmed): with N domains each resolving successfully to a distinct
fixed IP exactly once, every order in which the lock-serialized critical
sections can run (any permutation of the domain list, hence any thread bound
≥ 1) yields a final table with total count N and each of the N IPs counted
exactly once — no increment is lost. -/
theorem C2_no_lost_updates (urls perm : List String) (ipOf : String → String)
    (envOf : String → Nat → RType → DnsOutcome)
    (hres : ∀ u ∈ urls, envOf (clean_url u) 0 RType.A = DnsOutcome.success [ipOf u])
    (hnodup : (urls.map ipOf).Nodup)
    (hperm : List.Perm perm urls) :
    totalCount (runTasks envOf perm []) = urls.length ∧
    ∀ u ∈ urls, countOf (runTasks envOf perm []) (ipOf u) = 1 := by
  have hres2 : ∀ u ∈ perm,
      envOf (clean_url u) 0 RType.A = DnsOutcome.success [ipOf u] :=
    fun u hu => hres u (hperm.mem_iff.1 hu)
  rw [runTasks_map envOf ipOf perm [] hres2]
  constructor
  · rw [totalCount_foldl]
    simp [hperm.length_eq, totalCount]
  · intro u hu
    rw [countOf_foldl]
    have h1 : (perm.map ipOf).count (ipOf u) = (urls.map ipOf).count (ipOf u) :=
      (hperm.map ipOf).count_eq (ipOf u)
    have h2 : (urls.map ipOf).count (ipOf u) = 1 :=
      List.count_eq_one_of_mem hnodup (List.mem_map_of_mem ipOf hu)
    simp [countOf, h1, h2]

/-- Witness for C2: two domains resolving to themselves, executed in the
reversed order, give total 2 with each IP counted once. -/
theorem C2_witness :
    totalCount (runTasks echoEnvOf ["b.com", "a.com"] []) = 2 ∧
    ∀ u ∈ (["a.com", "b.com"] : List String),
      countOf (runTasks echoEnvOf ["b.com", "a.com"] []) (id u) = 1 :=
  C2_no_lost_updates ["a.com", "b.com"] ["b.com", "a.com"] id echoEnvOf
    (by decide) (by decide) (by decide)
